import Mathlib

/-!
Verification development for the VirtuCameraMaya command-protocol server.

The definitions below are a shallow embedding of the Python sources
`plug-ins/virtuCameraMaya/virtuCameraMaya.py` (the newer variant, the primary
source for the claims) and `virtuCameraMaya/virtuCameraMaya.py` (the older
variant, embedded separately where a claim refers to it).  Machine doubles
carried by the protocol are modelled as rationals; byte strings are modelled
as lists of naturals in 0..255.
-/

/-! ## Transform Convention Layer

`_vc_to_maya_up_axis` / `_maya_to_vc_up_axis` (plug-ins variant, lines
565-579).  `api.MMatrix` is a row-major 4x4 matrix and `mat *= rot_mat` is
the usual matrix product `mat * rot_mat`. -/

/-- A 4x4 transform matrix (16 doubles, modelled over the rationals). -/
abbrev Mat4 := Matrix (Fin 4) (Fin 4) ℚ

/-- The fixed basis-swap matrix of `_vc_to_maya_up_axis`:
`MMatrix((1, 0, 0, 0, 0, 0, 1, 0, 0,-1, 0, 0, 0, 0, 0, 1))`, row-major. -/
def rotVcToMaya : Mat4 :=
  !![1, 0, 0, 0; 0, 0, 1, 0; 0, -1, 0, 0; 0, 0, 0, 1]

/-- The fixed basis-swap matrix of `_maya_to_vc_up_axis`:
`MMatrix((1, 0, 0, 0, 0, 0,-1, 0, 0, 1, 0, 0, 0, 0, 0, 1))`, row-major. -/
def rotMayaToVc : Mat4 :=
  !![1, 0, 0, 0; 0, 0, -1, 0; 0, 1, 0, 0; 0, 0, 0, 1]

/-- Embedding of `_vc_to_maya_up_axis(self, tr_matrix)`: if the host is
Z-up, right-multiply by the basis swap, else return the matrix unchanged. -/
def vcToMayaUpAxis (isZUp : Bool) (m : Mat4) : Mat4 :=
  if isZUp then m * rotVcToMaya else m

/-- Embedding of `_maya_to_vc_up_axis(self, tr_matrix)`. -/
def mayaToVcUpAxis (isZUp : Bool) (m : Mat4) : Mat4 :=
  if isZUp then m * rotMayaToVc else m

lemma rotVcToMaya_mul_rotMayaToVc : rotVcToMaya * rotMayaToVc = 1 := by
  ext i j
  fin_cases i <;> fin_cases j <;>
    simp [rotVcToMaya, rotMayaToVc, Matrix.mul_apply, Fin.sum_univ_four,
      Matrix.one_apply, Matrix.vecHead, Matrix.vecTail]

lemma rotMayaToVc_mul_rotVcToMaya : rotMayaToVc * rotVcToMaya = 1 := by
  ext i j
  fin_cases i <;> fin_cases j <;>
    simp [rotVcToMaya, rotMayaToVc, Matrix.mul_apply, Fin.sum_univ_four,
      Matrix.one_apply, Matrix.vecHead, Matrix.vecTail]

/-! ## Camera-has-keys byte (`_send_camera_has_keys`, plug-ins lines 804-822) -/

/-- Embedding of the bit packing in `_send_camera_has_keys`: the byte sent
for a pair (transform-has-keys, focal-length-has-keys). -/
def camHasKeysByte (trHasKeys flenHasKeys : Bool) : Nat :=
  if trHasKeys && flenHasKeys then 7
  else if trHasKeys then 3
  else if flenHasKeys then 5
  else 0

/-! ## Byte-level helpers -/

/-- Bytes are modelled as naturals 0..255. -/
abbrev Byte := Nat

/-- Little-endian decoding of a 2-byte unsigned integer (`struct.unpack` with
format `<H`). -/
def decodeU16 (bs : List Byte) : Nat :=
  bs.getD 0 0 + 256 * bs.getD 1 0

/-! ## FFmpeg command construction (`_get_ffmpeg_cmd`, plug-ins lines 388-435) -/

/-- The source constant `_ALPHA_BITRATE_RATIO = 0.2`: factor of the total
bitrate used for the alpha plane. -/
def alphaBitrateFactor : ℚ := 1 / 5

/-- Three-digit zero padding for the fractional part of a fixed-point
rendering. -/
def pad3 (n : Nat) : String :=
  if n < 10 then "00" ++ toString n
  else if n < 100 then "0" ++ toString n
  else toString n

/-- Round a rational to the nearest integer (halves up): the floor of
`q + 1/2`, computed on the numerator and denominator. -/
def roundQ (q : ℚ) : ℤ := Int.fdiv (2 * q.num + q.den) (2 * q.den)

/-- Render `m` thousandths as a fixed-point decimal string with three
decimals (nonnegative values only, which is all this development needs). -/
def fmtMilli (m : ℤ) : String :=
  toString (m / 1000) ++ "." ++ pad3 (m % 1000).toNat

/-- Rendering of a nonnegative rational with exactly three decimals, the
model of Python `'%.3f' % x` for the values arising here (every value this
development evaluates it on is exact at three decimals, so the tie-breaking
rule of the C library never comes into play). -/
def fmt3 (q : ℚ) : String := fmtMilli (roundQ (q * 1000))

/-- Embedding of `_get_ffmpeg_cmd(self, fps, bitrate, port, opaque, vflip)`
from the plug-ins variant.  `bin` is `self.ffmpeg_bin`, `w`/`h` are
`self._real_stream_width` / `_real_stream_height`, `cltAddr` is
`self._tcp_clt_addr[0]`, and `solid` embeds the source's `opaque` flag (the
1-byte flag meaning the stream carries no alpha plane). -/
def getFfmpegCmd (bin : String) (w h : Nat) (cltAddr : String)
    (fps bitrate : ℚ) (port : Nat) (solid vflip : Bool) : List String :=
  let base := [bin, "-y", "-f:v", "rawvideo", "-c:v", "rawvideo",
    "-s", toString w ++ "x" ++ toString h,
    "-pix_fmt", "bgra",
    "-r", fmt3 fps,
    "-an",
    "-i", "-"]
  let mid :=
    if solid then
      (if vflip then ["-vf", "vflip"] else []) ++ ["-b:v", fmt3 bitrate ++ "M"]
    else
      let bitrateRgb := bitrate * (1 - alphaBitrateFactor)
      let bitrateAlpha := bitrate * alphaBitrateFactor
      let filterComplex := "[0:v]" ++ (if vflip then "vflip," else "") ++
        "split=2[rgbout][alphain];[alphain]alphaextract[alphaout]"
      ["-filter_complex", filterComplex,
       "-map", "[rgbout]",
       "-map", "[alphaout]",
       "-b:v:0", fmt3 bitrateRgb ++ "M",
       "-b:v:1", fmt3 bitrateAlpha ++ "M"]
  base ++ mid ++
    ["-pix_fmt", "yuv420p", "-c:v", "libx264", "-tune", "zerolatency",
     "-preset", "fast", "-refs", "1", "-intra-refresh", "1",
     "-profile:v", "high", "-level", "4.1", "-f", "avi",
     "tcp://" ++ cltAddr ++ ":" ++ toString port ++ "?tcp_nodelay=1"]

/-! ## The receive loop (`_tcp_recv`, plug-ins lines 366-375)

The Python loop is

    data = str()
    data_len = 0
    while data_len < exact_len:
        read_len = exact_len - data_len
        data += self._tcp_clt_socket.recv(read_len)
        data_len = len(data)
    return data

`recvFn k n` models the bytes returned by the k-th `socket.recv(n)` call
(at most `n` of them; after the peer has closed the socket, `recv` returns
the empty string).  The `fuel` argument counts loop iterations: a result of
`none` means the loop was still running when `fuel` iterations had
elapsed. -/
def tcpRecvLoop (recvFn : Nat → Nat → List Byte) (exactLen : Nat) :
    Nat → Nat → List Byte → Option (List Byte)
  | 0, _, data => if data.length < exactLen then none else some data
  | fuel + 1, k, data =>
    if data.length < exactLen then
      tcpRecvLoop recvFn exactLen fuel (k + 1)
        (data ++ recvFn k (exactLen - data.length))
    else some data

/-- A peer that delivers a single byte on the first `recv` call and then
closes the socket, after which every `recv` returns the empty string. -/
def eofAfterOneByte (k : Nat) (_req : Nat) : List Byte :=
  if k = 0 then [65] else []

lemma tcpRecvLoop_eof_stuck :
    ∀ fuel k, k ≠ 0 → tcpRecvLoop eofAfterOneByte 2 fuel k [65] = none := by
  intro fuel
  induction fuel with
  | zero => intro k hk; simp [tcpRecvLoop]
  | succ n ih =>
    intro k hk
    simp only [tcpRecvLoop, List.length_cons, List.length_nil]
    rw [if_pos (by norm_num)]
    simp [eofAfterOneByte, hk, ih (k + 1) (Nat.succ_ne_zero k)]

/-! ## Command dispatcher / protocol state machine

Shallow embedding of `_proccess_command` (plug-ins variant, lines 974-1101)
and the handlers it routes to.  A handler is a function from the per-session
server state and the inbound byte stream to a `Step`: the updated state, the
remaining stream, the ordered list of observable events the handler
performed, and an optional uncaught Python exception.

Socket reads are modelled under the assumption that the connection stays
alive, so `self._tcp_recv(n)` yields the next `n` bytes of the stream (or
whatever remains); the behaviour of `_tcp_recv` against a peer that closes
early is modelled separately by `tcpRecvLoop` above.  Calls into the Maya
scene (`self._maya_exec(...)`) are modelled by an `Env` oracle fixing their
results, and scene mutations are recorded as events carrying the raw payload
bytes they were decoded from. -/

/-- An uncaught Python exception escaping a handler. -/
inductive PyError where
  | indexError
  | attributeError
  | calledProcessError
deriving DecidableEq

/-- Payload of a `_tcp_send(cmd, data)` call, mirroring how the data
argument is built in the source. -/
inductive LenContent where
  | serverInfo (version : Nat × Nat × Nat) (name : String)
  | sceneCameras (currentIdx : Nat) (names : List String)
  | scriptInfo (labels : List String)
deriving DecidableEq

inductive Payload where
  | empty
  | bytes (bs : List Byte)
  | doubles (ds : List ℚ)
  | withLen (c : LenContent)
deriving DecidableEq

/-- A scene mutation performed through `_maya_exec`, tagged with the raw
payload bytes it decodes (`struct.unpack` on a fixed format is injective, so
carrying the bytes loses nothing). -/
inductive Mutation where
  | xform (raw : List Byte)
  | xformAtTime (raw : List Byte)
  | camAll (raw : List Byte)
  | camAllAtTime (raw : List Byte)
  | focal (raw : List Byte)
  | focalAtTime (raw : List Byte)
  | currentTime (raw : List Byte)
  | playbackRange (raw : List Byte)
  | playStart (raw : List Byte)
  | playStop
  | playSwitch
  | focalKeys (raw : List Byte)
  | matrixKeys (raw : List Byte)
  | removeKeys
  | createCam (name : String)
  | lookThrough (cam : String)
  | startStream (raw : List Byte)
deriving DecidableEq

/-- Observable events of a handler, in program order: `send cmd p` is a
`self._tcp_send(cmd, data)` call (`cmd` is the first byte that goes on the
wire), `recv bs` is a `self._tcp_recv(n)` call that consumed `bs`,
`execScript i` is the attempted execution of custom script `i`, `mutate m`
is a scene mutation, `teardown` is the streaming-pipeline teardown performed
by `_stop_streaming`. -/
inductive Ev where
  | send (cmd : Byte) (p : Payload)
  | recv (bs : List Byte)
  | execScript (idx : Nat)
  | mutate (m : Mutation)
  | teardown
deriving DecidableEq

/-- Oracle for every call the handlers make into the Maya scene, the
configuration and the operating system. -/
structure Env where
  /-- Result of `cmds.objExists(name)`. -/
  objExists : String → Bool
  /-- Result of `self._get_scene_cameras()`. -/
  sceneCameras : List String
  /-- Transform-keys component of `self._get_camera_has_keys()` when the
  camera exists. -/
  trHasKeys : Bool
  /-- Focal-length-keys component of `self._get_camera_has_keys()`. -/
  flenHasKeys : Bool
  /-- Result of `self._get_scene_status()` when the camera exists:
  (current frame, range start, range end, focal length). -/
  sceneStatus : ℚ × ℚ × ℚ × ℚ
  /-- Result of `self._get_current_camera_transform()` when the camera
  exists (already converted by `_maya_to_vc_up_axis`). -/
  cameraTransform : List ℚ
  /-- Result of `self._get_play_fps()`. -/
  playFps : ℚ
  /-- `self._config.script_count`. -/
  scriptCount : Nat
  /-- Whether `self._config.script_codes[i]` is the empty string. -/
  scriptEmpty : Nat → Bool
  /-- Whether executing script `i` raises no exception. -/
  scriptExecOk : Nat → Bool
  /-- Result of `self._maya_create_new_camera()`. -/
  newCameraName : String
  /-- Result of `self._get_server_name()`. -/
  serverName : String
  /-- `self._config.script_labels`. -/
  scriptLabels : List String
  /-- Whether `self._fout.write(img_bytes)` succeeds (the encoder process is
  alive and its input pipe open). -/
  writeOk : Bool
  /-- Whether `subprocess.Popen` launches the encoder successfully. -/
  ffmpegOk : Bool

/-- Per-session server state touched by the handlers under study:
`self.current_camera`, `self._scene_cameras` (an attribute that does not
exist until `_send_scene_cameras` first assigns it, hence the `Option`),
`self.is_streaming` and `self.is_autosend`. -/
structure St where
  currentCamera : String
  sceneCamerasCache : Option (List String)
  isStreaming : Bool
  isAutosend : Bool
deriving DecidableEq

/-- Result of running one handler. -/
structure Step where
  st : St
  stream : List Byte
  evs : List Ev
  err : Option PyError
deriving DecidableEq

/-- Embedding of `_set_camera_transform` (reads 128 bytes, then
`_transform_current_camera`: mutate if the camera exists, else reply
`ERR_MISSING_CAMERA`). -/
def setCameraTransform (env : Env) (st : St) (stream : List Byte) : Step :=
  let data := stream.take 128
  let rest := stream.drop 128
  if data.isEmpty then ⟨st, rest, [.recv data], none⟩
  else if env.objExists st.currentCamera then
    ⟨st, rest, [.recv data, .mutate (.xform data)], none⟩
  else ⟨st, rest, [.recv data, .send 200 .empty], none⟩

/-- Embedding of `_set_camera_transform_at_time` (136 bytes). -/
def setCameraTransformAtTime (env : Env) (st : St) (stream : List Byte) : Step :=
  let data := stream.take 136
  let rest := stream.drop 136
  if data.isEmpty then ⟨st, rest, [.recv data], none⟩
  else if env.objExists st.currentCamera then
    ⟨st, rest, [.recv data, .mutate (.xformAtTime data)], none⟩
  else ⟨st, rest, [.recv data, .send 200 .empty], none⟩

/-- Embedding of `_set_camera_all` (136 bytes: matrix and focal length). -/
def setCameraAll (env : Env) (st : St) (stream : List Byte) : Step :=
  let data := stream.take 136
  let rest := stream.drop 136
  if data.isEmpty then ⟨st, rest, [.recv data], none⟩
  else if env.objExists st.currentCamera then
    ⟨st, rest, [.recv data, .mutate (.camAll data)], none⟩
  else ⟨st, rest, [.recv data, .send 200 .empty], none⟩

/-- Embedding of `_set_camera_all_at_time` (144 bytes). -/
def setCameraAllAtTime (env : Env) (st : St) (stream : List Byte) : Step :=
  let data := stream.take 144
  let rest := stream.drop 144
  if data.isEmpty then ⟨st, rest, [.recv data], none⟩
  else if env.objExists st.currentCamera then
    ⟨st, rest, [.recv data, .mutate (.camAllAtTime data)], none⟩
  else ⟨st, rest, [.recv data, .send 200 .empty], none⟩

/-- Embedding of `_set_focal_length` (8 bytes; the existence check happens
after the read). -/
def setFocalLength (env : Env) (st : St) (stream : List Byte) : Step :=
  let data := stream.take 8
  let rest := stream.drop 8
  if data.isEmpty then ⟨st, rest, [.recv data], none⟩
  else if env.objExists st.currentCamera then
    ⟨st, rest, [.recv data, .mutate (.focal data)], none⟩
  else ⟨st, rest, [.recv data, .send 200 .empty], none⟩

/-- Embedding of `_set_focal_length_at_time` (16 bytes). -/
def setFocalLengthAtTime (env : Env) (st : St) (stream : List Byte) : Step :=
  let data := stream.take 16
  let rest := stream.drop 16
  if data.isEmpty then ⟨st, rest, [.recv data], none⟩
  else if env.objExists st.currentCamera then
    ⟨st, rest, [.recv data, .mutate (.focalAtTime data)], none⟩
  else ⟨st, rest, [.recv data, .send 200 .empty], none⟩

/-- Embedding of `_set_current_time` (8 bytes; no camera check). -/
def setCurrentTime (st : St) (stream : List Byte) : Step :=
  let data := stream.take 8
  let rest := stream.drop 8
  if data.isEmpty then ⟨st, rest, [.recv data], none⟩
  else ⟨st, rest, [.recv data, .mutate (.currentTime data)], none⟩

/-- Embedding of `_set_playback_range` (16 bytes; no camera check). -/
def setPlaybackRange (st : St) (stream : List Byte) : Step :=
  let data := stream.take 16
  let rest := stream.drop 16
  if data.isEmpty then ⟨st, rest, [.recv data], none⟩
  else ⟨st, rest, [.recv data, .mutate (.playbackRange data)], none⟩

/-- Embedding of `_start_playback` (1 byte: the forward flag). -/
def startPlayback (st : St) (stream : List Byte) : Step :=
  let data := stream.take 1
  let rest := stream.drop 1
  if data.isEmpty then ⟨st, rest, [.recv data], none⟩
  else ⟨st, rest, [.recv data, .mutate (.playStart data)], none⟩

/-- Embedding of `_stop_playback`. -/
def stopPlayback (st : St) (stream : List Byte) : Step :=
  ⟨st, stream, [.mutate .playStop], none⟩

/-- Embedding of `_switch_playback`. -/
def switchPlayback (st : St) (stream : List Byte) : Step :=
  ⟨st, stream, [.mutate .playSwitch], none⟩

/-- Embedding of `_send_scene_status`. -/
def sendSceneStatus (env : Env) (st : St) (stream : List Byte) : Step :=
  if env.objExists st.currentCamera then
    ⟨st, stream, [.send 1 (.doubles [env.sceneStatus.1, env.sceneStatus.2.1,
      env.sceneStatus.2.2.1, env.sceneStatus.2.2.2])], none⟩
  else ⟨st, stream, [.send 200 .empty], none⟩

/-- Embedding of `_send_camera_transform`. -/
def sendCameraTransform (env : Env) (st : St) (stream : List Byte) : Step :=
  if env.objExists st.currentCamera then
    ⟨st, stream, [.send 3 (.doubles env.cameraTransform)], none⟩
  else ⟨st, stream, [.send 200 .empty], none⟩

/-- Embedding of `_send_camera_has_keys` (packs the two key flags through
`camHasKeysByte`). -/
def sendCameraHasKeys (env : Env) (st : St) (stream : List Byte) : Step :=
  if env.objExists st.currentCamera then
    ⟨st, stream, [.send 6 (.bytes [camHasKeysByte env.trHasKeys env.flenHasKeys])], none⟩
  else ⟨st, stream, [.send 200 .empty], none⟩

/-- Embedding of `_send_play_fps`. -/
def sendPlayFps (env : Env) (st : St) (stream : List Byte) : Step :=
  ⟨st, stream, [.send 5 (.doubles [env.playFps])], none⟩

/-- Embedding of `_send_scene_cameras`: refreshes `self._scene_cameras`,
computes the current index (65535 when the current camera is not in the
list) and replies with the length-prefixed list. -/
def sendSceneCameras (env : Env) (st : St) (stream : List Byte) : Step :=
  let cams := env.sceneCameras
  let idx := match cams.indexOf? st.currentCamera with
    | some i => i
    | none => 65535
  ⟨{st with sceneCamerasCache := some cams}, stream,
    [.send 2 (.withLen (.sceneCameras idx cams))], none⟩

/-- Embedding of `_set_current_camera`.  `self._scene_cameras` raises
`AttributeError` when the attribute was never assigned; `camera =
self._scene_cameras[camera_idx]` raises `IndexError` when the index is out
of range. -/
def setCurrentCamera (env : Env) (st : St) (stream : List Byte) : Step :=
  match st.sceneCamerasCache with
  | none => ⟨st, stream, [], some .attributeError⟩
  | some cams =>
    if cams.isEmpty then ⟨st, stream, [], none⟩
    else
      let data := stream.take 2
      let rest := stream.drop 2
      if data.isEmpty then ⟨st, rest, [.recv data], none⟩
      else
        let idx := decodeU16 data
        match cams.get? idx with
        | none => ⟨st, rest, [.recv data], some .indexError⟩
        | some cam =>
          if env.objExists cam then
            if st.isStreaming then
              ⟨{st with currentCamera := cam}, rest,
                [.recv data, .mutate (.lookThrough cam)], none⟩
            else ⟨{st with currentCamera := cam}, rest, [.recv data], none⟩
          else ⟨st, rest, [.recv data, .send 200 .empty], none⟩

/-- Embedding of `_remove_camera_keys`. -/
def removeCameraKeys (env : Env) (st : St) (stream : List Byte) : Step :=
  if env.objExists st.currentCamera then
    ⟨st, stream, [.mutate .removeKeys], none⟩
  else ⟨st, stream, [.send 200 .empty], none⟩

/-- Embedding of `_create_new_camera` (always succeeds; selects the new
camera and, while streaming, looks through it). -/
def createNewCamera (env : Env) (st : St) (stream : List Byte) : Step :=
  let st1 := {st with currentCamera := env.newCameraName}
  if st.isStreaming then
    ⟨st1, stream, [.mutate (.createCam env.newCameraName),
      .mutate (.lookThrough env.newCameraName)], none⟩
  else ⟨st1, stream, [.mutate (.createCam env.newCameraName)], none⟩

/-- Embedding of `_set_camera_matrix_keys`: 2-byte count, then count x 136
bytes of matrix-frame pairs.  A zero count makes the second `_tcp_recv`
return the empty string, so the handler silently returns. -/
def setCameraMatrixKeys (env : Env) (st : St) (stream : List Byte) : Step :=
  let data := stream.take 2
  let rest := stream.drop 2
  if data.isEmpty then ⟨st, rest, [.recv data], none⟩
  else
    let keyCount := decodeU16 data
    let data2 := rest.take (keyCount * 136)
    let rest2 := rest.drop (keyCount * 136)
    if data2.isEmpty then ⟨st, rest2, [.recv data, .recv data2], none⟩
    else if env.objExists st.currentCamera then
      ⟨st, rest2, [.recv data, .recv data2, .mutate (.matrixKeys data2)], none⟩
    else ⟨st, rest2, [.recv data, .recv data2, .send 200 .empty], none⟩

/-- Embedding of `_set_camera_flen_keys`: 2-byte count, then count x 16
bytes of focal-length-frame pairs. -/
def setCameraFlenKeys (env : Env) (st : St) (stream : List Byte) : Step :=
  let data := stream.take 2
  let rest := stream.drop 2
  if data.isEmpty then ⟨st, rest, [.recv data], none⟩
  else
    let keyCount := decodeU16 data
    let data2 := rest.take (keyCount * 16)
    let rest2 := rest.drop (keyCount * 16)
    if data2.isEmpty then ⟨st, rest2, [.recv data, .recv data2], none⟩
    else if env.objExists st.currentCamera then
      ⟨st, rest2, [.recv data, .recv data2, .mutate (.focalKeys data2)], none⟩
    else ⟨st, rest2, [.recv data, .recv data2, .send 200 .empty], none⟩

/-- Embedding of `_start_streaming` (plug-ins variant): reads the 12-byte
parameter block first, then rejects if already streaming, then checks the
camera; `self.is_autosend` is assigned from the last payload byte before the
encoder launch is attempted, and a launch failure replies `ERR_FFMPEG` and
rolls `is_streaming` back. -/
def startStreaming (env : Env) (st : St) (stream : List Byte) : Step :=
  let data := stream.take 12
  let rest := stream.drop 12
  if data.isEmpty then ⟨st, rest, [.recv data], none⟩
  else if st.isStreaming then ⟨st, rest, [.recv data], none⟩
  else if env.objExists st.currentCamera then
    let autosend := !(data.getD 11 0 == 0)
    let st1 := {st with isStreaming := true, isAutosend := autosend}
    if env.ffmpegOk then
      ⟨st1, rest, [.recv data, .mutate (.startStream data)], none⟩
    else
      ⟨{st1 with isStreaming := false}, rest, [.recv data, .send 202 .empty], none⟩
  else ⟨st, rest, [.recv data, .send 200 .empty], none⟩

/-- Embedding of `_stop_streaming` (plug-ins variant): no-op unless
streaming; otherwise close the encoder pipe, wait for the process, clear
both flags and restore the UI (summarized as a `teardown` event). -/
def stopStreamingStep (st : St) : St × List Ev :=
  if st.isStreaming then
    ({st with isStreaming := false, isAutosend := false}, [.teardown])
  else (st, [])

/-- Embedding of `_send_viewport_img` (plug-ins variant, lines 546-563):
when not streaming, reply `ERR_NOT_STREAMING` unless in autosend mode; when
streaming, capture a frame and write it to the encoder pipe; if the write
raises, tear the pipeline down and reply `ERR_NOT_STREAMING`
(unconditionally). -/
def sendViewportImg (env : Env) (st : St) : St × List Ev :=
  if !st.isStreaming then
    if !st.isAutosend then (st, [.send 201 .empty]) else (st, [])
  else if env.writeOk then (st, [])
  else
    let (st1, evs1) := stopStreamingStep st
    (st1, evs1 ++ [.send 201 .empty])

/-- Embedding of `_send_viewport_img` from the older variant
(`virtuCameraMaya/virtuCameraMaya.py`, lines 485-497) together with its
`_stop_streaming(err=True)`: the teardown resets `self.is_autosend` to
`False` and then, when the encoder's return code is nonzero, raises
`CalledProcessError`; only afterwards is `if not self.is_autosend` checked,
reading the already-reset flag. -/
def sendViewportImgOld (env : Env) (st : St) (returncodeZero : Bool) :
    St × List Ev × Option PyError :=
  if !st.isStreaming then
    if !st.isAutosend then (st, [.send 201 .empty], none) else (st, [], none)
  else if env.writeOk then (st, [], none)
  else
    let st1 := {st with isStreaming := false, isAutosend := false}
    if returncodeZero then
      if !st1.isAutosend then (st1, [.teardown, .send 201 .empty], none)
      else (st1, [.teardown], none)
    else (st1, [.teardown], some .calledProcessError)

/-- Embedding of `_execute_script` (plug-ins variant, lines 628-660): the
1-byte script index is read first; an out-of-range index or an empty script
replies `ERR_EXECUTE_SCRIPT` with the index; otherwise the script is
executed and only then is the reply sent — the echoed opcode with the index
on success, `ERR_EXECUTE_SCRIPT` with the index on failure. -/
def executeScript (env : Env) (st : St) (stream : List Byte) : Step :=
  let data := stream.take 1
  let rest := stream.drop 1
  let tail : List Ev :=
    if data.isEmpty then []
    else
      let idx := data.getD 0 0
      if env.scriptCount ≤ idx then [.send 203 (.bytes data)]
      else if env.scriptEmpty idx then [.send 203 (.bytes data)]
      else if env.scriptExecOk idx then [.execScript idx, .send 157 (.bytes data)]
      else [.execScript idx, .send 203 (.bytes data)]
  ⟨st, rest, .recv data :: tail, none⟩

/-- Embedding of `_send_script_info`. -/
def sendScriptInfo (env : Env) (st : St) (stream : List Byte) : Step :=
  ⟨st, stream, [.send 7 (.withLen (.scriptInfo
    (env.scriptLabels.map fun l => if l = "" then " " else l)))], none⟩

/-- Embedding of `_send_server_info`. -/
def sendServerInfo (env : Env) (st : St) (stream : List Byte) : Step :=
  ⟨st, stream, [.send 0 (.withLen (.serverInfo (1, 2, 3)
    ("Maya" ++ "_" ++ env.serverName)))], none⟩

/-- The acknowledgment `self._tcp_send(cmd)` performed by
`_proccess_command` before a SET/DO handler runs: prepend the echo of the
opcode to the handler's events. -/
def ackStep (c : Byte) (s : Step) : Step :=
  {s with evs := .send c .empty :: s.evs}

/-- Lift a handler that touches no socket bytes and raises nothing. -/
def pureStep (stream : List Byte) (p : St × List Ev) : Step :=
  ⟨p.1, stream, p.2, none⟩

/-- Embedding of `_proccess_command(self, cmd)` (plug-ins variant): the
`elif` chain in source order.  SET/DO opcodes are acknowledged by echoing
the opcode before their handler runs, except `_CMD_DO_EXECUTE_SCRIPT`
(157), which replies only after the attempted execution.  Unknown opcodes
fall through with no effect. -/
def processCommand (env : Env) (c : Byte) (st : St) (stream : List Byte) : Step :=
  if c = 54 then ackStep c (setCameraTransformAtTime env st stream)
  else if c = 53 then ackStep c (setCameraTransform env st stream)
  else if c = 58 then ackStep c (setCameraAllAtTime env st stream)
  else if c = 57 then ackStep c (setCameraAll env st stream)
  else if c = 56 then ackStep c (setFocalLengthAtTime env st stream)
  else if c = 55 then ackStep c (setFocalLength env st stream)
  else if c = 51 then ackStep c (setCurrentTime st stream)
  else if c = 4 then pureStep stream (sendViewportImg env st)
  else if c = 1 then sendSceneStatus env st stream
  else if c = 3 then sendCameraTransform env st stream
  else if c = 6 then sendCameraHasKeys env st stream
  else if c = 5 then sendPlayFps env st stream
  else if c = 154 then ackStep c (switchPlayback st stream)
  else if c = 152 then ackStep c (startPlayback st stream)
  else if c = 153 then ackStep c (stopPlayback st stream)
  else if c = 2 then sendSceneCameras env st stream
  else if c = 52 then ackStep c (setCurrentCamera env st stream)
  else if c = 50 then ackStep c (setPlaybackRange st stream)
  else if c = 155 then ackStep c (removeCameraKeys env st stream)
  else if c = 156 then ackStep c (createNewCamera env st stream)
  else if c = 59 then ackStep c (setCameraMatrixKeys env st stream)
  else if c = 60 then ackStep c (setCameraFlenKeys env st stream)
  else if c = 150 then ackStep c (startStreaming env st stream)
  else if c = 151 then ackStep c (pureStep stream (stopStreamingStep st))
  else if c = 157 then executeScript env st stream
  else if c = 7 then sendScriptInfo env st stream
  else if c = 0 then sendServerInfo env st stream
  else ⟨st, stream, [], none⟩

/-- Embedding of the per-connection command loop in `_handle_tcp_socket`
(plug-ins lines 1173-1181): read one opcode byte, dispatch, repeat; an empty
read (EOF) ends the session; an uncaught exception escapes the loop and
kills the connection thread.  `fuel` bounds the number of iterations
modelled. -/
def sessionLoop (env : Env) : Nat → St → List Byte → List Ev →
    St × List Ev × Option PyError
  | 0, st, _, evs => (st, evs, none)
  | fuel + 1, st, stream, evs =>
    match stream with
    | [] => (st, evs, none)
    | c :: rest =>
      let s := processCommand env c st rest
      match s.err with
      | some e => (s.st, evs ++ s.evs, some e)
      | none => sessionLoop env fuel s.st s.stream (evs ++ s.evs)

/-! ## Service announcer and accept loop (plug-ins lines 1135-1190)

`_handle_tcp_socket` loops once per accepted connection; at the top of each
iteration it spawns `_handle_server_announcement` whenever no announcement
thread is running (`if not self._is_announcing`).  The announcement thread
registers the service record on start, re-registers every 10 seconds while
`is_serving and not is_connected`, and on exit clears `_is_announcing` and
withdraws the record.  The model abstracts one iteration of the accept loop
into `serveRound`: the boolean `annExits` says whether the announcement
thread woke up during the connected period (a session outliving the 10 s
sleep) and therefore exited and withdrew the record before the next
iteration. -/

/-- The inter-thread flag `self._is_announcing`. -/
structure AnnSt where
  isAnnouncing : Bool
deriving DecidableEq

/-- Observable announcer/accept-loop events: `register` is
`_server_register` at announcement-thread start, `unregister` is
`_server_unregister` at announcement-thread exit, `accept` is a client
connection being accepted, `disconnect` is the end of that session. -/
inductive AnnEv where
  | register
  | unregister
  | accept
  | disconnect
deriving DecidableEq

/-- One iteration of the `while self.is_serving` accept loop with a client
that connects and later disconnects. -/
def serveRound (annExits : Bool) (s : AnnSt) : AnnSt × List AnnEv :=
  let (s1, evs1) :=
    if !s.isAnnouncing then (⟨true⟩, [AnnEv.register]) else (s, [])
  let (s2, evs2) :=
    if annExits && s1.isAnnouncing then (⟨false⟩, [AnnEv.unregister])
    else (s1, [])
  (s2, evs1 ++ [AnnEv.accept] ++ evs2 ++ [AnnEv.disconnect])

/-- A run of consecutive accept-loop iterations within one serving
lifetime. -/
def serveRounds : List Bool → AnnSt → AnnSt × List AnnEv
  | [], s => (s, [])
  | e :: es, s =>
    let (s1, t1) := serveRound e s
    let (s2, t2) := serveRounds es s1
    (s2, t1 ++ t2)

/-! ## Claim theorems -/

/-- C2: for every 4x4 transform matrix, applying the protocol-to-host
up-axis conversion followed by the host-to-protocol conversion (and vice
versa) yields the matrix back, both when the host is Y-up (flag false,
identity branch) and when it is Z-up (flag true, basis-swap branch). -/
theorem c2_up_axis_roundtrip :
    ∀ (isZUp : Bool) (m : Mat4),
      mayaToVcUpAxis isZUp (vcToMayaUpAxis isZUp m) = m ∧
      vcToMayaUpAxis isZUp (mayaToVcUpAxis isZUp m) = m := by
  intro z m
  cases z <;> constructor <;>
    simp [vcToMayaUpAxis, mayaToVcUpAxis, mul_assoc,
      rotVcToMaya_mul_rotMayaToVc, rotMayaToVc_mul_rotVcToMaya]

/-- C3: in the camera-has-keys reply byte, bit 0 is set iff the camera has
transform keys or focal-length keys, and the encoding is injective: the
byte determines the flag pair. -/
theorem c3_has_keys_byte :
    ∀ (tr fl tr2 fl2 : Bool),
      ((camHasKeysByte tr fl).testBit 0 = (tr || fl)) ∧
      (camHasKeysByte tr fl = camHasKeysByte tr2 fl2 → tr = tr2 ∧ fl = fl2) := by
  decide

theorem c3_has_keys_byte_witness :
    (camHasKeysByte true false).testBit 0 = (true || false) ∧
      ((true : Bool) = true ∧ (false : Bool) = false) :=
  ⟨(c3_has_keys_byte true false true false).1,
   (c3_has_keys_byte true false true false).2 rfl⟩

/-- C5: against a peer that delivers one byte of a requested 2-byte payload
and then closes the socket (every further `recv` returns the empty string),
the `_tcp_recv` loop never terminates: however many iterations are allowed,
it is still looping, so it neither signals failure nor returns a short
buffer.  This contradicts the claim (and the spec, which demands that the
read fail), so the claim is recorded as a code bug witnessed here. -/
theorem c5_tcp_recv_short_read_hangs :
    ∀ fuel, tcpRecvLoop eofAfterOneByte 2 fuel 0 [] = none := by
  intro fuel
  cases fuel with
  | zero => simp [tcpRecvLoop]
  | succ n =>
    simp only [tcpRecvLoop, List.length_nil]
    rw [if_pos (by norm_num)]
    simpa [eofAfterOneByte] using tcpRecvLoop_eof_stuck n 1 one_ne_zero

/-- C9: with opaque=false the encoder command line carries the RGB plane at
80 percent and the alpha plane at 20 percent of the requested bitrate
(positions 21-24 of the argument list), and at 10 Mbit/s these render as
8.000M and 2.000M. -/
theorem c9_bitrate_split :
    ∀ (bin : String) (w h : Nat) (addr : String) (fps b : ℚ) (port : Nat)
      (vflip : Bool),
      (getFfmpegCmd bin w h addr fps b port false vflip)[21]? = some "-b:v:0" ∧
      (getFfmpegCmd bin w h addr fps b port false vflip)[22]? =
        some (fmt3 (b * (1 - alphaBitrateFactor)) ++ "M") ∧
      (getFfmpegCmd bin w h addr fps b port false vflip)[23]? = some "-b:v:1" ∧
      (getFfmpegCmd bin w h addr fps b port false vflip)[24]? =
        some (fmt3 (b * alphaBitrateFactor) ++ "M") ∧
      b * (1 - alphaBitrateFactor) = (4 / 5) * b ∧
      b * alphaBitrateFactor = (1 / 5) * b ∧
      fmt3 ((10 : ℚ) * (1 - alphaBitrateFactor)) = "8.000" ∧
      fmt3 ((10 : ℚ) * alphaBitrateFactor) = "2.000" := by
  intro bin w h addr fps b port vflip
  refine ⟨rfl, rfl, rfl, rfl, by norm_num [alphaBitrateFactor]; ring,
    by norm_num [alphaBitrateFactor]; ring, ?_, ?_⟩
  · have hv : (10 : ℚ) * (1 - alphaBitrateFactor) * 1000 = 8000 := by
      norm_num [alphaBitrateFactor]
    unfold fmt3
    rw [hv]
    decide
  · have hv : (10 : ℚ) * alphaBitrateFactor * 1000 = 2000 := by
      norm_num [alphaBitrateFactor]
    unfold fmt3
    rw [hv]
    decide

/-- The SET-range and DO-range opcodes handled by `_proccess_command`
(plug-ins variant). -/
def setDoOpcodes : List Byte :=
  [50, 51, 52, 53, 54, 55, 56, 57, 58, 59, 60,
   150, 151, 152, 153, 154, 155, 156, 157]

/-- A fixed Maya environment used to instantiate hypotheses of the claim
theorems at concrete inputs. -/
def envDemo : Env where
  objExists := fun _ => true
  sceneCameras := ["persp"]
  trHasKeys := false
  flenHasKeys := false
  sceneStatus := (1, 1, 24, 35)
  cameraTransform := [1, 0, 0, 0, 0, 1, 0, 0, 0, 0, 1, 0, 0, 0, 0, 1]
  playFps := 24
  scriptCount := 1
  scriptEmpty := fun _ => false
  scriptExecOk := fun _ => true
  newCameraName := "camera1"
  serverName := "host - Maya"
  scriptLabels := ["label"]
  writeOk := true
  ffmpegOk := true

/-- A fixed session state used to instantiate the claim theorems. -/
def stDemo : St where
  currentCamera := "persp"
  sceneCamerasCache := none
  isStreaming := false
  isAutosend := false

/-- C1: for every handled SET/DO opcode except DO_EXECUTE_SCRIPT (157), the
first event of the handler run is the echo of the opcode byte — so the
first byte sent equals the opcode and precedes every payload read.  For
DO_EXECUTE_SCRIPT the first event is the read of the index byte, and when a
nonempty existing script is selected the whole event trace is: read the
index, attempt the execution, and only then send the reply (the echoed
opcode on success, ERR_EXECUTE_SCRIPT on failure), each carrying the
index. -/
theorem c1_ack_before_payload :
    ∀ (env : Env) (st : St) (stream : List Byte) (c : Byte),
      (c ∈ setDoOpcodes → c ≠ 157 →
        (processCommand env c st stream).evs.head? = some (.send c .empty)) ∧
      ((processCommand env 157 st stream).evs.head? =
        some (.recv (stream.take 1))) ∧
      (∀ i rest, stream = i :: rest → i < env.scriptCount →
        env.scriptEmpty i = false →
        (processCommand env 157 st stream).evs =
          [.recv [i], .execScript i,
           .send (if env.scriptExecOk i then 157 else 203) (.bytes [i])]) := by
  intro env st stream c
  refine ⟨?_, ?_, ?_⟩
  · intro hc hne
    fin_cases hc
    all_goals first
      | rfl
      | exact absurd rfl hne
  · rfl
  · intro i rest hstream hlt hempty
    subst hstream
    have hpc : processCommand env 157 st (i :: rest) =
        executeScript env st (i :: rest) := by
      norm_num [processCommand]
    rw [hpc]
    simp [executeScript, hempty, Nat.not_le.mpr hlt]
    by_cases hok : env.scriptExecOk i = true <;> simp [hok]

theorem c1_ack_before_payload_witness :
    (processCommand envDemo 53 stDemo []).evs.head? =
      some (.send 53 .empty) ∧
    (processCommand envDemo 157 stDemo [0]).evs =
      [.recv [0], .execScript 0, .send 157 (.bytes [0])] := by
  constructor
  · exact (c1_ack_before_payload envDemo stDemo [] 53).1 (by decide) (by decide)
  · exact (c1_ack_before_payload envDemo stDemo [0] 157).2.2 0 [] rfl
      (by decide) (by decide)

/-- The handled opcodes whose handler targets the currently selected
camera. -/
def camTargetOpcodes : List Byte :=
  [54, 53, 58, 57, 56, 55, 1, 3, 6, 59, 60, 155, 150]

/-- Side conditions under which the handler for `c` reaches its
missing-camera check: the stream holds the handler's payload (and, for the
keyframe batches, a nonzero key count; for streaming start, the session is
not already streaming). -/
def c8Ready (c : Byte) (st : St) (stream : List Byte) : Bool :=
  if c = 59 || c = 60 then
    !stream.isEmpty && !(stream.drop 2).isEmpty &&
      (decodeU16 (stream.take 2) != 0)
  else if c = 150 then !stream.isEmpty && !st.isStreaming
  else if c = 1 || c = 3 || c = 6 || c = 155 then true
  else !stream.isEmpty

lemma take_isEmpty_false (l : List Byte) (n : Nat)
    (hl : l.isEmpty = false) (hn : n ≠ 0) : (l.take n).isEmpty = false := by
  cases l with
  | nil => simp at hl
  | cons a t =>
    cases n with
    | zero => exact absurd rfl hn
    | succ m => simp

/-- C8: whenever a handler that targets the currently selected camera finds
that the camera does not exist, it replies with the single
ERR_MISSING_CAMERA opcode (and nothing else beyond the SET/DO
acknowledgment), performs no scene mutation, leaves the session state
unchanged, and raises nothing, so the session continues. -/
theorem c8_missing_camera :
    ∀ (env : Env) (st : St) (stream : List Byte) (c : Byte),
      c ∈ camTargetOpcodes →
      env.objExists st.currentCamera = false →
      c8Ready c st stream = true →
      ((processCommand env c st stream).st = st ∧
       (processCommand env c st stream).err = none ∧
       (∀ m, Ev.mutate m ∉ (processCommand env c st stream).evs) ∧
       Ev.send 200 .empty ∈ (processCommand env c st stream).evs ∧
       (∀ d p, Ev.send d p ∈ (processCommand env c st stream).evs →
         (d = c ∧ p = .empty) ∨ (d = 200 ∧ p = .empty))) := by
  intro env st stream c hmem hex hready
  fin_cases hmem
  · -- 54 SET_CAMERA_MATRIX_AT_TIME
    cases stream with
    | nil => simp [c8Ready] at hready
    | cons b tl =>
      refine ⟨?_, ?_, ?_, ?_, ?_⟩ <;>
        simp [processCommand, ackStep, setCameraTransformAtTime, hex]
  · -- 53 SET_CAMERA_MATRIX
    cases stream with
    | nil => simp [c8Ready] at hready
    | cons b tl =>
      refine ⟨?_, ?_, ?_, ?_, ?_⟩ <;>
        simp [processCommand, ackStep, setCameraTransform, hex]
  · -- 58 SET_CAMERA_ALL_AT_TIME
    cases stream with
    | nil => simp [c8Ready] at hready
    | cons b tl =>
      refine ⟨?_, ?_, ?_, ?_, ?_⟩ <;>
        simp [processCommand, ackStep, setCameraAllAtTime, hex]
  · -- 57 SET_CAMERA_ALL
    cases stream with
    | nil => simp [c8Ready] at hready
    | cons b tl =>
      refine ⟨?_, ?_, ?_, ?_, ?_⟩ <;>
        simp [processCommand, ackStep, setCameraAll, hex]
  · -- 56 SET_FOCAL_LENGTH_AT_TIME
    cases stream with
    | nil => simp [c8Ready] at hready
    | cons b tl =>
      refine ⟨?_, ?_, ?_, ?_, ?_⟩ <;>
        simp [processCommand, ackStep, setFocalLengthAtTime, hex]
  · -- 55 SET_FOCAL_LENGTH
    cases stream with
    | nil => simp [c8Ready] at hready
    | cons b tl =>
      refine ⟨?_, ?_, ?_, ?_, ?_⟩ <;>
        simp [processCommand, ackStep, setFocalLength, hex]
  · -- 1 ASK_SCENE_STATUS
    refine ⟨?_, ?_, ?_, ?_, ?_⟩ <;>
      simp [processCommand, sendSceneStatus, hex]
  · -- 3 ASK_CAMERA_MATRIX
    refine ⟨?_, ?_, ?_, ?_, ?_⟩ <;>
      simp [processCommand, sendCameraTransform, hex]
  · -- 6 ASK_CAMERA_HAS_KEYS
    refine ⟨?_, ?_, ?_, ?_, ?_⟩ <;>
      simp [processCommand, sendCameraHasKeys, hex]
  · -- 59 SET_CAMERA_MATRIX_KEYS
    simp only [c8Ready, decide_eq_true_eq] at hready
    norm_num at hready
    obtain ⟨⟨h1, h2⟩, h3⟩ := hready
    have hd2 : ((stream.drop 2).take (decodeU16 (stream.take 2) * 136)).isEmpty
        = false := by
      refine take_isEmpty_false _ _ ?_ (Nat.mul_ne_zero h3 (by norm_num))
      simpa [List.isEmpty_iff] using h2
    cases stream with
    | nil => simp at h1
    | cons b tl =>
      refine ⟨?_, ?_, ?_, ?_, ?_⟩ <;>
        simp [processCommand, ackStep, setCameraMatrixKeys, hex,
          hd2, List.take_succ_cons, List.drop_succ_cons] at hd2 ⊢ <;>
        simp [hd2]
  · -- 60 SET_CAMERA_FLEN_KEYS
    simp only [c8Ready, decide_eq_true_eq] at hready
    norm_num at hready
    obtain ⟨⟨h1, h2⟩, h3⟩ := hready
    have hd2 : ((stream.drop 2).take (decodeU16 (stream.take 2) * 16)).isEmpty
        = false := by
      refine take_isEmpty_false _ _ ?_ (Nat.mul_ne_zero h3 (by norm_num))
      simpa [List.isEmpty_iff] using h2
    cases stream with
    | nil => simp at h1
    | cons b tl =>
      refine ⟨?_, ?_, ?_, ?_, ?_⟩ <;>
        simp [processCommand, ackStep, setCameraFlenKeys, hex,
          hd2, List.take_succ_cons, List.drop_succ_cons] at hd2 ⊢ <;>
        simp [hd2]
  · -- 155 DO_REMOVE_CAMERA_KEYS
    refine ⟨?_, ?_, ?_, ?_, ?_⟩ <;>
      simp [processCommand, ackStep, removeCameraKeys, hex]
  · -- 150 DO_START_STREAMING
    simp only [c8Ready] at hready
    norm_num at hready
    obtain ⟨h1, h2⟩ := hready
    cases stream with
    | nil => simp at h1
    | cons b tl =>
      refine ⟨?_, ?_, ?_, ?_, ?_⟩ <;>
        simp [processCommand, ackStep, startStreaming, hex, h2]

/-- An environment in which the currently selected camera does not exist. -/
def envNoCam : Env := {envDemo with objExists := fun _ => false}

theorem c8_missing_camera_witness :
    Ev.send 200 .empty ∈ (processCommand envNoCam 55 stDemo [0]).evs :=
  (c8_missing_camera envNoCam stDemo [0] 55 (by decide) rfl (by decide)).2.2.2.1

/-- A session state that is streaming in autosend mode. -/
def stStreamAuto : St where
  currentCamera := "persp"
  sceneCamerasCache := some ["persp"]
  isStreaming := true
  isAutosend := true

/-- An environment in which the write to the encoder pipe fails. -/
def envWriteFail : Env := {envDemo with writeOk := false}

/-- C4 counterexample: with streaming active, autosend mode on and the
encoder-pipe write failing, `_send_viewport_img` does send the
ERR_NOT_STREAMING reply — the claim says the reply is suppressed in
autosend mode, but the write-failure branch sends it unconditionally. -/
theorem c4_autosend_err_counterexample :
    stStreamAuto.isAutosend = true ∧ stStreamAuto.isStreaming = true ∧
      envWriteFail.writeOk = false ∧
      Ev.send 201 .empty ∈ (sendViewportImg envWriteFail stStreamAuto).2 := by
  refine ⟨rfl, rfl, rfl, ?_⟩
  decide

/-- C4 amended: when a frame write to the encoder pipe fails while
streaming, the pipeline is torn down and the ERR_NOT_STREAMING reply is
sent regardless of the delivery mode; the autosend suppression exists only
on the entry path, where a frame is requested or pushed while no pipeline
is active. -/
theorem c4_write_failure_amended :
    ∀ (env : Env) (st : St),
      (st.isStreaming = true → env.writeOk = false →
        ((sendViewportImg env st).1.isStreaming = false ∧
         (sendViewportImg env st).1.isAutosend = false ∧
         Ev.teardown ∈ (sendViewportImg env st).2 ∧
         Ev.send 201 .empty ∈ (sendViewportImg env st).2)) ∧
      (st.isStreaming = false → st.isAutosend = true →
        (sendViewportImg env st).2 = []) := by
  intro env st
  constructor
  · intro h1 h2
    simp [sendViewportImg, stopStreamingStep, h1, h2]
  · intro h1 h2
    simp [sendViewportImg, h1, h2]

/-- A session state that is not streaming but still flagged autosend. -/
def stIdleAuto : St where
  currentCamera := ""
  sceneCamerasCache := none
  isStreaming := false
  isAutosend := true

theorem c4_write_failure_amended_witness :
    ((sendViewportImg envWriteFail stStreamAuto).1.isStreaming = false ∧
     (sendViewportImg envWriteFail stStreamAuto).1.isAutosend = false ∧
     Ev.teardown ∈ (sendViewportImg envWriteFail stStreamAuto).2 ∧
     Ev.send 201 .empty ∈ (sendViewportImg envWriteFail stStreamAuto).2) ∧
    (sendViewportImg envDemo stIdleAuto).2 = [] :=
  ⟨(c4_write_failure_amended envWriteFail stStreamAuto).1 rfl rfl,
   (c4_write_failure_amended envDemo stIdleAuto).2 rfl rfl⟩

/-- The older variant's write-failure path reads `if not self.is_autosend`
only after `_stop_streaming` has already reset `is_autosend` to False, so
(when the teardown itself does not raise) the guard is dead and the
ERR_NOT_STREAMING reply is sent even in autosend mode. -/
lemma sendViewportImgOld_guard_dead :
    ∀ (env : Env) (st : St), st.isStreaming = true → env.writeOk = false →
      (sendViewportImgOld env st true).2.1 = [Ev.teardown, .send 201 .empty] := by
  intro env st h1 h2
  simp [sendViewportImgOld, h1, h2]

/-- A session state with two cameras cached. -/
def stTwoCams : St where
  currentCamera := "persp"
  sceneCamerasCache := some ["persp", "top"]
  isStreaming := false
  isAutosend := false

/-- C6: the 2-byte payload 0xFFFF decodes to the sentinel 65535, and
processing SET_CURRENT_CAMERA with it makes
`camera = self._scene_cameras[camera_idx]` raise IndexError (the camera
list has fewer than 65536 entries), which escapes the handler and kills the
connection thread.  The selected camera is left unchanged, but the session
does not continue, contradicting the claim; since the `0xFFFF = none`
convention is documented in the source itself, this is recorded as a code
bug. -/
theorem c6_sentinel_index_crash :
    decodeU16 [255, 255] = 65535 ∧
    (processCommand envDemo 52 stTwoCams [255, 255]).err = some .indexError ∧
    (processCommand envDemo 52 stTwoCams [255, 255]).st.currentCamera =
      stTwoCams.currentCamera := by
  refine ⟨by decide, by decide, by decide⟩

/-- C7 counterexample: a serving lifetime with two client connections, each
long enough for the sleeping announcement thread to wake and exit during
the session.  The event trace shows a second `register` after the first
client has connected (and disconnected), so announcing does not stop
permanently for the remainder of the serving lifetime. -/
theorem c7_reannounce_counterexample :
    (serveRounds [true, true] ⟨false⟩).2 =
      [.register, .accept, .unregister, .disconnect,
       .register, .accept, .unregister, .disconnect] ∧
    AnnEv.register ∈ ((serveRounds [true, true] ⟨false⟩).2.drop 2) := by
  constructor <;> decide

/-- C7 amended: the announcement cycle stops once a client connects (the
thread exits and withdraws the record), but at the top of every accept-loop
iteration with no live announcement thread a fresh cycle starts and
registers again — so announcing resumes each time the server returns to
listening, rather than only after a stop/start transition. -/
theorem c7_announce_cycle_amended :
    ∀ (annExits : Bool) (s : AnnSt),
      (s.isAnnouncing = false →
        (serveRound annExits s).2.head? = some .register) ∧
      (annExits = true → (serveRound annExits s).1.isAnnouncing = false) := by
  intro e s
  constructor
  · intro h
    simp [serveRound, h]
  · intro h
    cases hb : s.isAnnouncing <;> simp [serveRound, h, hb]

theorem c7_announce_cycle_amended_witness :
    (serveRound true ⟨false⟩).2.head? = some .register ∧
    (serveRound true ⟨false⟩).1.isAnnouncing = false :=
  ⟨(c7_announce_cycle_amended true ⟨false⟩).1 rfl,
   (c7_announce_cycle_amended true ⟨false⟩).2 rfl⟩

/-- C10 counterexample: on a server instance where `ASK_SCENE_CAMERAS` has
never run, `self._scene_cameras` does not exist, so SET_CURRENT_CAMERA
acknowledges the opcode and then raises AttributeError instead of returning
gracefully — the claim's parenthetical (cache unpopulated in the current
connection implies the graceful-return behaviour) fails. -/
theorem c10_unpopulated_cache_counterexample :
    stDemo.sceneCamerasCache = none ∧
    processCommand envDemo 52 stDemo [255, 255] =
      ⟨stDemo, [255, 255], [.send 52 .empty], some .attributeError⟩ := by
  exact ⟨rfl, by decide⟩

/-- A session state whose cached scene-camera list was populated and is
empty. -/
def stEmptyCache : St where
  currentCamera := "persp"
  sceneCamerasCache := some []
  isStreaming := false
  isAutosend := false

/-- C10 amended: when the cached scene-camera list has been populated and
is empty, SET_CURRENT_CAMERA acknowledges the opcode, reads no payload
bytes, changes nothing and raises nothing — so the 2-byte index payload
stays in the stream, and the session loop then consumes those bytes as
opcodes (in the concrete run, payload bytes 0 and 1 are interpreted as
ASK_SERVER_INFO and ASK_SCENE_STATUS and answered); when the cache was
never populated at all, the handler instead raises AttributeError. -/
theorem c10_empty_cache_amended :
    (∀ (env : Env) (st : St) (stream : List Byte),
      st.sceneCamerasCache = some [] →
      processCommand env 52 st stream =
        ⟨st, stream, [.send 52 .empty], none⟩) ∧
    sessionLoop envDemo 3 stEmptyCache [52, 0, 1] [] =
      (stEmptyCache,
       [.send 52 .empty,
        .send 0 (.withLen (.serverInfo (1, 2, 3) ("Maya" ++ "_" ++ envDemo.serverName))),
        .send 1 (.doubles [1, 1, 24, 35])], none) := by
  constructor
  · intro env st stream h
    simp [processCommand, ackStep, setCurrentCamera, h]
  · decide

theorem c10_empty_cache_amended_witness :
    processCommand envDemo 52 stEmptyCache [255, 255] =
      ⟨stEmptyCache, [255, 255], [.send 52 .empty], none⟩ :=
  c10_empty_cache_amended.1 envDemo stEmptyCache [255, 255] rfl
